/-
Verification of the CHIP-8 interpreter core (src/chip8.cpp) against its
specification.  The interpreter state is embedded shallowly: the C++ member
arrays become total maps `Nat → Nat` (the source indexes them without bounds
checks, so a flat map reproduces the exact address arithmetic), 8-bit and
16-bit wraparound is written out as `% 256` / `% 65536` exactly where the
C++ unsigned types wrap, and each `OP_*` member function becomes a pure
state-transition function that reads its operand fields out of the latched
`opcode`, exactly as the source does.
-/
import Mathlib

set_option linter.unusedVariables false

namespace Chip8Spec

def START_ADDRESS : Nat := 0x200
def FONTSET_START_ADDRESS : Nat := 0x50
def FONTSET_SIZE : Nat := 80
def VIDEO_HEIGHT : Nat := 32
def VIDEO_WIDTH : Nat := 64

/-- Sprites for characters (the global `fontset` array). -/
def fontset : List Nat :=
  [0xF0, 0x90, 0x90, 0x90, 0xF0,
   0x20, 0x60, 0x20, 0x20, 0x70,
   0xF0, 0x10, 0xF0, 0x80, 0xF0,
   0xF0, 0x10, 0xF0, 0x10, 0xF0,
   0x90, 0x90, 0xF0, 0x10, 0x10,
   0xF0, 0x80, 0xF0, 0x10, 0xF0,
   0xF0, 0x80, 0xF0, 0x90, 0xF0,
   0xF0, 0x10, 0x20, 0x40, 0x40,
   0xF0, 0x90, 0xF0, 0x90, 0xF0,
   0xF0, 0x90, 0xF0, 0x10, 0xF0,
   0xF0, 0x90, 0xF0, 0x90, 0x90,
   0xE0, 0x90, 0xE0, 0x90, 0xE0,
   0xF0, 0x80, 0x80, 0x80, 0xF0,
   0xE0, 0x90, 0x90, 0x90, 0xE0,
   0xF0, 0x80, 0xF0, 0x80, 0xF0,
   0xF0, 0x80, 0xF0, 0x80, 0x80]

/-- Pointwise update of a flat map, modelling a C array store `f[i] = v`. -/
def writeAt (f : Nat → Nat) (i v : Nat) : Nat → Nat :=
  fun j => if j = i then v else f j

/-- The mutable members of `class Chip8`.  `registers`, `memory`, `stack`,
`keypad` and `video` are the C arrays as flat maps; `keypad` holds the
truth value of the `uint8_t` latch (the source only tests it for zero /
nonzero).  The RNG members (`randGen`, `randByte`) carry no state relevant
to any modelled instruction and are omitted. -/
structure Chip8 where
  registers : Nat → Nat
  memory : Nat → Nat
  index : Nat
  pc : Nat
  stack : Nat → Nat
  sp : Nat
  delayTimer : Nat
  soundTimer : Nat
  keypad : Nat → Bool
  video : Nat → Nat
  opcode : Nat

/-- The constructor `Chip8::Chip8`.  In C++ the data members of the object
start out indeterminate; `pre` carries those indeterminate contents.  The
constructor body only sets `pc = START_ADDRESS` and copies the fontset into
`memory[FONTSET_START_ADDRESS + i]` for `i < FONTSET_SIZE` (plus RNG setup,
not modelled); every other member keeps its pre-construction value. -/
def Chip8.construct (pre : Chip8) : Chip8 :=
  let s1 := { pre with pc := START_ADDRESS }
  let mem := (List.range FONTSET_SIZE).foldl
    (fun m i => writeAt m (FONTSET_START_ADDRESS + i) (fontset.getD i 0)) s1.memory
  { s1 with memory := mem }

/-- `Chip8::LoadROM`, restricted to its memory effect: the file contents
`rom` are copied byte by byte into `memory[START_ADDRESS + i]` for every
`i < rom.length`, with no size check of any kind (the function returns
`void` and signals nothing). -/
def Chip8.LoadROM (s : Chip8) (rom : List Nat) : Chip8 :=
  let mem := (List.range rom.length).foldl
    (fun m i => writeAt m (START_ADDRESS + i) (rom.getD i 0)) s.memory
  { s with memory := mem }

/-- `OP_00E0`: `memset(video, 0, VIDEO_HEIGHT * VIDEO_WIDTH)` zeroes that
many BYTES of the `uint32_t` array, i.e. cell `i` (whose four bytes occupy
offsets `4*i .. 4*i+3`) is zeroed exactly when `4*i + 3 < 2048`. -/
def Chip8.OP_00E0 (s : Chip8) : Chip8 :=
  { s with video := fun i =>
      if 4 * i + 3 < VIDEO_HEIGHT * VIDEO_WIDTH then 0 else s.video i }

/-- `OP_00EE`: `--sp; pc = stack[sp];` with `sp` a `uint8_t`. -/
def Chip8.OP_00EE (s : Chip8) : Chip8 :=
  let s1 := { s with sp := (s.sp + 255) % 256 }
  { s1 with pc := s1.stack s1.sp }

/-- `OP_2nnn`: `address = opcode & 0x0FFF; pc = address;
stack[sp] = pc; ++sp; pc = address;` — note the source overwrites `pc`
with the call target BEFORE pushing it. -/
def Chip8.OP_2nnn (s : Chip8) : Chip8 :=
  let address := s.opcode &&& 0x0FFF
  let s1 := { s with pc := address }
  let s2 := { s1 with stack := writeAt s1.stack s1.sp s1.pc }
  let s3 := { s2 with sp := (s2.sp + 1) % 256 }
  { s3 with pc := address }

/-- `OP_8xy4`: `result = registers[Vx] + registers[Vy]` (a `uint16_t`),
then the flag is written into `registers[15]`, and only AFTER that
`registers[Vx] += registers[Vy]` re-reads both registers. -/
def Chip8.OP_8xy4 (s : Chip8) : Chip8 :=
  let Vx := (s.opcode &&& 0x0F00) >>> 8
  let Vy := (s.opcode &&& 0x00F0) >>> 4
  let result := (s.registers Vx + s.registers Vy) % 65536
  let r1 := writeAt s.registers 15 (if 255 < result then 1 else 0)
  { s with registers := writeAt r1 Vx ((r1 Vx + r1 Vy) % 256) }

/-- One inner-loop iteration of `OP_Dxyn` (fixed `row`, varying `col`),
acting on the pair (video, registers[15]).  The source computes
`screenPixel = &video[(yPos + row) * VIDEO_WIDTH]` — `xPos` and `col` do
not enter the address — tests it for collision when the sprite bit is set,
and then XORs `0xFFFFFFFF` into it unconditionally. -/
def drawStep (spriteByte yIdx : Nat) (vc : (Nat → Nat) × Nat) (col : Nat) :
    (Nat → Nat) × Nat :=
  let spritePixel := spriteByte &&& (0x80 >>> col)
  let screenPixel := vc.1 (yIdx * VIDEO_WIDTH)
  let flag := if spritePixel ≠ 0 ∧ screenPixel = 0xFFFFFFFF then 1 else vc.2
  (writeAt vc.1 (yIdx * VIDEO_WIDTH) (Nat.xor screenPixel 0xFFFFFFFF), flag)

/-- `OP_Dxyn`: `xPos = registers[Vx] % 64`, `yPos = registers[Vy] % 32`,
`registers[15] = 0`, then for each `row < height` the sprite byte
`memory[index + row]` is processed by eight `drawStep` iterations. -/
def Chip8.OP_Dxyn (s : Chip8) : Chip8 :=
  let Vx := (s.opcode &&& 0x0F00) >>> 8
  let Vy := (s.opcode &&& 0x00F0) >>> 4
  let height := s.opcode &&& 0x000F
  let xPos := s.registers Vx % VIDEO_WIDTH
  let yPos := s.registers Vy % VIDEO_HEIGHT
  let final := (List.range height).foldl
    (fun vc row =>
      (List.range 8).foldl (drawStep (s.memory (s.index + row)) (yPos + row)) vc)
    (s.video, 0)
  { s with video := final.1, registers := writeAt s.registers 15 final.2 }

/-- `OP_Fx0A`: the sixteen-way `if/else if` chain over `keypad[0..15]`;
the final `else` does `pc -= 2` (`uint16_t` wraparound). -/
def Chip8.OP_Fx0A (s : Chip8) : Chip8 :=
  let Vx := (s.opcode &&& 0x0F00) >>> 8
  if s.keypad 0 then { s with registers := writeAt s.registers Vx 0 }
  else if s.keypad 1 then { s with registers := writeAt s.registers Vx 1 }
  else if s.keypad 2 then { s with registers := writeAt s.registers Vx 2 }
  else if s.keypad 3 then { s with registers := writeAt s.registers Vx 3 }
  else if s.keypad 4 then { s with registers := writeAt s.registers Vx 4 }
  else if s.keypad 5 then { s with registers := writeAt s.registers Vx 5 }
  else if s.keypad 6 then { s with registers := writeAt s.registers Vx 6 }
  else if s.keypad 7 then { s with registers := writeAt s.registers Vx 7 }
  else if s.keypad 8 then { s with registers := writeAt s.registers Vx 8 }
  else if s.keypad 9 then { s with registers := writeAt s.registers Vx 9 }
  else if s.keypad 10 then { s with registers := writeAt s.registers Vx 10 }
  else if s.keypad 11 then { s with registers := writeAt s.registers Vx 11 }
  else if s.keypad 12 then { s with registers := writeAt s.registers Vx 12 }
  else if s.keypad 13 then { s with registers := writeAt s.registers Vx 13 }
  else if s.keypad 14 then { s with registers := writeAt s.registers Vx 14 }
  else if s.keypad 15 then { s with registers := writeAt s.registers Vx 15 }
  else { s with pc := (s.pc + 65534) % 65536 }

/-- `OP_Fx29`: `index += FONTSET_START_ADDRESS + (5 * digit)` — the source
ADDS to the index register (`+=`, `uint16_t` wraparound), it does not set it. -/
def Chip8.OP_Fx29 (s : Chip8) : Chip8 :=
  let Vx := (s.opcode &&& 0x0F00) >>> 8
  let digit := s.registers Vx
  { s with index := (s.index + (FONTSET_START_ADDRESS + 5 * digit)) % 65536 }

/-- `OP_Fx55`: `for (reg = 0; reg <= Vx; reg++) memory[index + reg] = registers[reg]`. -/
def Chip8.OP_Fx55 (s : Chip8) : Chip8 :=
  let Vx := (s.opcode &&& 0x0F00) >>> 8
  let mem := (List.range (Vx + 1)).foldl
    (fun m reg => writeAt m (s.index + reg) (s.registers reg)) s.memory
  { s with memory := mem }

/-- `OP_Fx65`: `for (reg = 0; reg <= Vx; reg++) registers[reg] = memory[index + reg]`. -/
def Chip8.OP_Fx65 (s : Chip8) : Chip8 :=
  let Vx := (s.opcode &&& 0x0F00) >>> 8
  let regs := (List.range (Vx + 1)).foldl
    (fun r reg => writeAt r reg (s.memory (s.index + reg))) s.registers
  { s with registers := regs }

/-- An all-zero state, used as a base for the concrete test states. -/
def initZero : Chip8 :=
  { registers := fun _ => 0
    memory := fun _ => 0
    index := 0
    pc := 0
    stack := fun _ => 0
    sp := 0
    delayTimer := 0
    soundTimer := 0
    keypad := fun _ => false
    video := fun _ => 0
    opcode := 0 }

/-- State just after fetching the call `2300` at 0x200: `pc` already holds
the return address 0x202 and the stack is empty. -/
def s2300 : Chip8 := { initZero with pc := 0x202, opcode := 0x2300 }

/-- All 2048 framebuffer cells lit. -/
def sLit : Chip8 := { initZero with video := fun _ => 0xFFFFFFFF }

/-- A pre-construction state whose indeterminate members all happen to hold
1 (or true): what the C++ object looks like before the constructor body runs
if the underlying storage held that garbage. -/
def junk : Chip8 :=
  { registers := fun _ => 1
    memory := fun _ => 1
    index := 1
    pc := 1
    stack := fun _ => 1
    sp := 1
    delayTimer := 1
    soundTimer := 1
    keypad := fun _ => true
    video := fun _ => 1
    opcode := 1 }

/-- Draw state: `D011` draws the 1-row sprite `0x80` (single set bit,
column 0 of the sprite) from `memory[0x300]` at V0 = 5, V1 = 0, i.e. at
screen position (5, 0), onto an all-unlit framebuffer. -/
def sDraw : Chip8 :=
  { initZero with
      registers := fun i => if i = 0 then 5 else 0
      memory := fun a => if a = 0x300 then 0x80 else 0
      index := 0x300
      opcode := 0xD011 }

/-- State for `F029` with `index = 0x100` and digit V0 = 0. -/
def sF29 : Chip8 := { initZero with index := 0x100, opcode := 0xF029 }

/-- State for `8xy4` with `Vy` the flag register: opcode `80F4`,
V0 = 1, V15 = 5. -/
def s80F4 : Chip8 :=
  { initZero with
      registers := fun i => if i = 0 then 1 else if i = 15 then 5 else 0
      opcode := 0x80F4 }

/-- State for `8014` (V0 := V0 + V1) with V0 = 200, V1 = 100. -/
def sAdd : Chip8 :=
  { initZero with
      registers := fun i => if i = 0 then 200 else if i = 1 then 100 else 0
      opcode := 0x8014 }

/-- State for `F30A` with no key latched and `pc` = 0x202 (just fetched). -/
def sKey : Chip8 := { initZero with pc := 0x202, opcode := 0xF30A }

/-- State for `F355` / `F365` with `index` = 0x300. -/
def sDump : Chip8 := { initZero with index := 0x300, opcode := 0xF355 }

/-- An oversized image: 3585 bytes = (4096 − 0x200) + 1, all equal to 7. -/
def romBig : List Nat := List.replicate 3585 7

theorem romBig_length : romBig.length = 3585 := by
  unfold romBig
  rw [List.length_replicate]

/-- Reading back an address that none of the writes of an ascending
write-loop touched returns the original contents. -/
theorem foldl_writeAt_frame (m : Nat → Nat) (addr val : Nat → Nat) :
    ∀ n a, (∀ i, i < n → a ≠ addr i) →
    ((List.range n).foldl (fun f i => writeAt f (addr i) (val i)) m) a = m a := by
  intro n
  induction n with
  | zero => intro a _; simp
  | succ k ih =>
    intro a h
    rw [List.range_succ, List.foldl_append]
    simp only [List.foldl_cons, List.foldl_nil]
    rw [writeAt, if_neg (h k (by omega))]
    exact ih a (fun i hi => h i (by omega))

/-- Reading back the `j`-th written address of an ascending write-loop
with injective addressing returns the `j`-th written value. -/
theorem foldl_writeAt_read (m : Nat → Nat) (addr val : Nat → Nat)
    (hinj : ∀ i j, addr i = addr j → i = j) :
    ∀ n j, j < n →
    ((List.range n).foldl (fun f i => writeAt f (addr i) (val i)) m) (addr j) = val j := by
  intro n
  induction n with
  | zero => intro j h; omega
  | succ k ih =>
    intro j h
    rw [List.range_succ, List.foldl_append]
    simp only [List.foldl_cons, List.foldl_nil]
    by_cases hj : j = k
    · subst hj; rw [writeAt, if_pos rfl]
    · rw [writeAt, if_neg (fun he => hj (hinj j k he))]
      exact ih j (by omega)

theorem replicate_getD (c : Nat) : ∀ n j, j < n → (List.replicate n c).getD j 0 = c := by
  intro n
  induction n with
  | zero => intro j h; omega
  | succ k ih =>
    intro j h
    cases j with
    | zero => simp [List.replicate]
    | succ i => simp only [List.replicate, List.getD_cons_succ]; exact ih i (by omega)

/-- C1: the claim fails on the code.  With stack pointer 0 and `pc` = 0x202
(the value left by the call instruction's own +2 fetch advance), executing
the call `2300` and then the return `00EE` leaves `pc` = 0x300 — the CALL
TARGET, not the 0x202 the claim requires — because `OP_2nnn` overwrites
`pc` with the target address before pushing it.  The stack pointer is
restored to 0.  (No instruction between call and return touches the pushed
slot, and `OP_00EE` ignores the intervening `pc`, so the immediate
composition exhibits the general behaviour.) -/
theorem call_then_ret_returns_to_target :
    (Chip8.OP_00EE (Chip8.OP_2nnn s2300)).pc = 0x300 ∧
    (Chip8.OP_00EE (Chip8.OP_2nnn s2300)).sp = 0 ∧
    s2300.pc = 0x202 ∧ s2300.sp = 0 := by decide

/-- C2: the claim fails on the code.  Drawing the one-row sprite `0x80`
(read from `memory[index]` = `memory[0x300]`) at (V0 mod 64, V1 mod 32)
= (5, 0) over an all-unlit framebuffer leaves cell 5 of row 0 — the cell
the claim says must be XOR-toggled to lit — still unlit, and in fact
leaves even the row-base cell 0 unlit (it is XORed unconditionally eight
times, a net no-op), with the collision flag 0: the source's pixel address
`(yPos + row) * VIDEO_WIDTH` ignores `xPos` and `col`, and the XOR is
performed regardless of the sprite bit. -/
theorem draw_leaves_target_cell_unlit :
    (Chip8.OP_Dxyn sDraw).video 5 = 0 ∧
    (Chip8.OP_Dxyn sDraw).video 0 = 0 ∧
    (Chip8.OP_Dxyn sDraw).registers 15 = 0 ∧
    sDraw.memory sDraw.index = 0x80 := by decide

/-- C3: the claim fails on the code.  Starting from an all-lit framebuffer,
`OP_00E0` unlights cells 0..511 only: `memset(video, 0, 2048)` zeroes 2048
bytes, which is one quarter of the 8192-byte `uint32_t[2048]` array, so
cells 512..2047 (rows 8..31) stay lit. -/
theorem cls_clears_only_first_quarter :
    (Chip8.OP_00E0 sLit).video 0 = 0 ∧
    (Chip8.OP_00E0 sLit).video 511 = 0 ∧
    (Chip8.OP_00E0 sLit).video 512 = 0xFFFFFFFF ∧
    (Chip8.OP_00E0 sLit).video 2047 = 0xFFFFFFFF := by decide

/-- C4: the claim fails on the code.  The constructor only sets the program
counter and copies the fontset (and seeds the RNG); it never zeroes the
registers, the rest of memory, the stack pointer, the timers, the keypad or
the framebuffer, so whatever indeterminate garbage the members held before
construction survives it: from the all-ones pre-state `junk`, after
construction `pc` = 0x200 and the fontset is in place, but register 0, the
stack pointer, `memory[0]`, the delay timer, keypad latch 0 and video cell
0 all still hold their garbage values instead of the zeroes the claim
requires. -/
theorem construct_keeps_indeterminate_members :
    (Chip8.construct junk).pc = 0x200 ∧
    (Chip8.construct junk).memory 0x50 = 0xF0 ∧
    (Chip8.construct junk).memory 0x9F = 0x80 ∧
    (Chip8.construct junk).registers 0 = 1 ∧
    (Chip8.construct junk).sp = 1 ∧
    (Chip8.construct junk).memory 0 = 1 ∧
    (Chip8.construct junk).delayTimer = 1 ∧
    (Chip8.construct junk).keypad 0 = true ∧
    (Chip8.construct junk).video 0 = 1 := by decide

/-- C5 counterexample: the claim quantifies over ALL registers Vx, Vy, but
with `Vy` = 15 (opcode `80F4`), V0 = 1 and V15 = 5 the final V0 is 1, not
(1 + 5) mod 256 = 6: the flag (here 0) is written into register 15 BEFORE
`registers[Vx] += registers[Vy]` re-reads register 15. -/
theorem add_8xy4_flag_operand_counterexample :
    ¬ ((Chip8.OP_8xy4 s80F4).registers 0 =
        (s80F4.registers 0 + s80F4.registers 15) % 256) := by decide

/-- C5 (amended): for all registers Vx, Vy OTHER THAN the flag register
(x ≠ 15 and y ≠ 15) and all 8-bit contents a = V[x], b = V[y], `OP_8xy4`
sets register 15 to 1 exactly when a + b > 255 (else 0) and sets V[x] to
(a + b) mod 256. -/
theorem add_8xy4_amended (s : Chip8)
    (hx : (s.opcode &&& 0x0F00) >>> 8 ≠ 15)
    (hy : (s.opcode &&& 0x00F0) >>> 4 ≠ 15)
    (ha : s.registers ((s.opcode &&& 0x0F00) >>> 8) < 256)
    (hb : s.registers ((s.opcode &&& 0x00F0) >>> 4) < 256) :
    (s.OP_8xy4).registers 15 =
      (if 255 < s.registers ((s.opcode &&& 0x0F00) >>> 8) +
        s.registers ((s.opcode &&& 0x00F0) >>> 4) then 1 else 0) ∧
    (s.OP_8xy4).registers ((s.opcode &&& 0x0F00) >>> 8) =
      (s.registers ((s.opcode &&& 0x0F00) >>> 8) +
        s.registers ((s.opcode &&& 0x00F0) >>> 4)) % 256 := by
  have hs : s.registers ((s.opcode &&& 0x0F00) >>> 8) +
      s.registers ((s.opcode &&& 0x00F0) >>> 4) < 65536 := by omega
  simp [Chip8.OP_8xy4, writeAt, hx, hy, Ne.symm hx, Nat.mod_eq_of_lt hs]

/-- Witness for the amended C5 at opcode `8014`, V0 = 200, V1 = 100:
the hypotheses hold and the result is carry flag 1, V0 = 44. -/
theorem add_8xy4_amended_witness :
    ((sAdd.opcode &&& 0x0F00) >>> 8 ≠ 15) ∧
    ((sAdd.opcode &&& 0x00F0) >>> 4 ≠ 15) ∧
    sAdd.registers ((sAdd.opcode &&& 0x0F00) >>> 8) < 256 ∧
    sAdd.registers ((sAdd.opcode &&& 0x00F0) >>> 4) < 256 ∧
    (sAdd.OP_8xy4).registers 15 = 1 ∧
    (sAdd.OP_8xy4).registers 0 = 44 := by
  have h := add_8xy4_amended sAdd (by decide) (by decide) (by decide) (by decide)
  refine ⟨by decide, by decide, by decide, by decide, ?_, ?_⟩
  · rw [h.1]; decide
  · have h2 := h.2
    rw [show (sAdd.opcode &&& 0x0F00) >>> 8 = 0 from rfl] at h2
    rw [h2]; decide

/-- C6: the claim fails on the code.  Starting from an all-unlit
framebuffer and drawing the sprite `0x80` (which has a set bit) twice with
identical state, the framebuffer is indeed all-unlit again (each draw is a
framebuffer no-op: every touched cell is XORed eight times), but the second
draw leaves the collision flag at 0, not the 1 the claim requires — the
code only raises the flag when the repeatedly-toggled row-base cell happens
to read all-ones under a set sprite bit at an odd column, and `0x80` has
its only set bit at column 0. -/
theorem double_draw_no_collision :
    (Chip8.OP_Dxyn (Chip8.OP_Dxyn sDraw)).registers 15 = 0 ∧
    (Chip8.OP_Dxyn (Chip8.OP_Dxyn sDraw)).video 0 = 0 ∧
    (Chip8.OP_Dxyn (Chip8.OP_Dxyn sDraw)).video 5 = 0 ∧
    sDraw.memory sDraw.index = 0x80 := by decide

/-- C7: the claim fails on the code.  With `index` = 0x100 and digit
V0 = 0, `OP_Fx29` yields `index` = 0x150, not the fontset address 0x50 =
FONTSET_START_ADDRESS + 5·0 the claim requires: the source uses `+=`, so
the prior index value is added in instead of being replaced. -/
theorem font_address_accumulates :
    (Chip8.OP_Fx29 sF29).index = 0x150 ∧
    FONTSET_START_ADDRESS + 5 * sF29.registers 0 = 0x50 ∧
    sF29.index = 0x100 := by decide

/-- C8: with `pc` holding a valid post-fetch value (2 ≤ pc < 65536): if no
keypad latch is set, `OP_Fx0A` decrements `pc` by exactly 2 and leaves
every register unchanged; if some latch is set, it stores the lowest set
latch index into V[x] and leaves `pc` untouched. -/
theorem key_wait_spec (s : Chip8) (h2 : 2 ≤ s.pc) (hlt : s.pc < 65536) :
    ((∀ k, k < 16 → s.keypad k = false) →
      (s.OP_Fx0A).pc = s.pc - 2 ∧ ∀ i, (s.OP_Fx0A).registers i = s.registers i) ∧
    (∀ k, k < 16 → s.keypad k = true → (∀ j, j < k → s.keypad j = false) →
      (s.OP_Fx0A).registers ((s.opcode &&& 0x0F00) >>> 8) = k ∧ (s.OP_Fx0A).pc = s.pc) := by
  constructor
  · intro h
    have e : s.OP_Fx0A = { s with pc := (s.pc + 65534) % 65536 } := by
      simp [Chip8.OP_Fx0A, h 0 (by omega), h 1 (by omega), h 2 (by omega), h 3 (by omega),
        h 4 (by omega), h 5 (by omega), h 6 (by omega), h 7 (by omega), h 8 (by omega),
        h 9 (by omega), h 10 (by omega), h 11 (by omega), h 12 (by omega), h 13 (by omega),
        h 14 (by omega), h 15 (by omega)]
    rw [e]
    exact ⟨by simp; omega, fun i => rfl⟩
  · intro k hk hkt hmin
    interval_cases k <;> simp_all [Chip8.OP_Fx0A, writeAt]

/-- Witness for C8 at `F30A` with no key latched and `pc` = 0x202:
the handler leaves `pc` = 0x200. -/
theorem key_wait_spec_witness :
    2 ≤ sKey.pc ∧ sKey.pc < 65536 ∧ (Chip8.OP_Fx0A sKey).pc = sKey.pc - 2 := by
  have h := key_wait_spec sKey (by decide) (by decide)
  exact ⟨by decide, by decide, (h.1 (by decide)).1⟩

/-- C9: the claim fails on the code.  Loading a 3585-byte image — one byte
more than the 4096 − 0x200 = 3584 bytes available — is not rejected:
`LoadROM` has no size check and no error result; it copies every byte, so
`memory[0x200]` is mutated (no abort, no untouched memory) and the final
byte lands at address 4096, one past the end of the 4096-byte `memory`
array (a buffer overflow in the C++). -/
theorem loadrom_oversized_not_rejected :
    (initZero.LoadROM romBig).memory 0x200 = 7 ∧
    (initZero.LoadROM romBig).memory 4096 = 7 ∧
    initZero.memory 0x200 = 0 ∧
    4096 - 0x200 < romBig.length := by
  have hinj : ∀ i j, (fun i => START_ADDRESS + i) i = (fun i => START_ADDRESS + i) j → i = j := by
    intro i j he
    simpa [START_ADDRESS] using he
  refine ⟨?_, ?_, rfl, by rw [romBig_length]; norm_num⟩
  · have h := foldl_writeAt_read initZero.memory (fun i => START_ADDRESS + i)
      (fun i => romBig.getD i 0) hinj romBig.length 0 (by rw [romBig_length]; norm_num)
    simp only [Chip8.LoadROM] at h ⊢
    rw [show (0x200 : Nat) = START_ADDRESS + 0 from rfl]
    rw [h]
    exact replicate_getD 7 3585 0 (by omega)
  · have h := foldl_writeAt_read initZero.memory (fun i => START_ADDRESS + i)
      (fun i => romBig.getD i 0) hinj romBig.length 3584 (by rw [romBig_length]; norm_num)
    simp only [Chip8.LoadROM] at h ⊢
    rw [show (4096 : Nat) = START_ADDRESS + 3584 from rfl]
    rw [h]
    exact replicate_getD 7 3585 3584 (by omega)

/-- C10: `OP_Fx55` and `OP_Fx65` leave the index register unchanged (no
post-increment); `OP_Fx55` leaves every register unchanged and every memory
cell outside `index .. index + x` unchanged; `OP_Fx65` leaves all of memory
unchanged and every register above x unchanged (x = the opcode's second
nibble, which is at most 15). -/
theorem regdump_regload_frame (s : Chip8) :
    (s.OP_Fx55).index = s.index ∧
    (s.OP_Fx65).index = s.index ∧
    (∀ i, (s.OP_Fx55).registers i = s.registers i) ∧
    (∀ a, a < s.index ∨ s.index + ((s.opcode &&& 0x0F00) >>> 8) < a →
      (s.OP_Fx55).memory a = s.memory a) ∧
    (∀ a, (s.OP_Fx65).memory a = s.memory a) ∧
    (∀ i, ((s.opcode &&& 0x0F00) >>> 8) < i → (s.OP_Fx65).registers i = s.registers i) := by
  refine ⟨rfl, rfl, fun i => rfl, ?_, fun a => rfl, ?_⟩
  · intro a ha
    simp only [Chip8.OP_Fx55]
    exact foldl_writeAt_frame s.memory (fun i => s.index + i) (fun i => s.registers i)
      (((s.opcode &&& 0x0F00) >>> 8) + 1) a
      (fun i hi => by show a ≠ s.index + i; omega)
  · intro i hi
    simp only [Chip8.OP_Fx65]
    exact foldl_writeAt_frame s.registers (fun j => j) (fun j => s.memory (s.index + j))
      (((s.opcode &&& 0x0F00) >>> 8) + 1) i
      (fun j hj => by show i ≠ j; omega)

/-- Witness for C10 at `F355` with `index` = 0x300: memory cell 0 (below
the stored range) and register 5 (above x = 3) are untouched. -/
theorem regdump_regload_frame_witness :
    0 < sDump.index ∧ ((sDump.opcode &&& 0x0F00) >>> 8) < 5 ∧
    (Chip8.OP_Fx55 sDump).memory 0 = sDump.memory 0 ∧
    (Chip8.OP_Fx65 sDump).registers 5 = sDump.registers 5 := by
  have h := regdump_regload_frame sDump
  exact ⟨by decide, by decide, h.2.2.2.1 0 (Or.inl (by decide)), h.2.2.2.2.2 5 (by decide)⟩

end Chip8Spec
